import Mathlib

/-!
Verification of the calorie-prediction service backend (app.py).

The service encodes a partially-populated request record into a fixed
28-slot numeric feature vector, feeds it to a pre-loaded regression model,
and wraps the outcome into a JSON response.  We embed the category encoder,
the seven category maps, the request record, the feature-vector
construction of the /predict handler, the handler's success/error wrapping,
and the module-level model-loading guard.

Numeric request fields are modelled as rationals (the handler performs no
arithmetic on them: they are passed through unchanged, so the exact carrier
of Python floats is irrelevant to the properties proved here).
-/

/-- A category map: an association list from lower-cased label to its
integer code, mirroring the Python dicts of app.py. -/
abbrev CategoryMap := List (String × Nat)

/-- Python's `str.lower()`, modelled character-wise over the string's
character list (the label alphabet of the service is ASCII, on which this
agrees with Python). -/
def strLower (s : String) : String := ⟨s.data.map Char.toLower⟩

/-- Python's `str.upper()`, modelled character-wise like `strLower`. -/
def strUpper (s : String) : String := ⟨s.data.map Char.toUpper⟩

/-- Embedding of `encode(category, mapping)` (app.py lines 118-121):
`None` maps to 0, otherwise the lower-cased label is looked up in the
mapping with default 0. -/
def encode (category : Option String) (mapping : CategoryMap) : Nat :=
  match category with
  | none => 0
  | some c => (mapping.lookup (strLower c)).getD 0

def gender_map : CategoryMap :=
  [("male", 1), ("female", 2), ("other", 3)]

def workout_map : CategoryMap :=
  [("strength", 1), ("cardio", 2), ("flexibility", 3), ("other", 4)]

def difficulty_map : CategoryMap :=
  [("beginner", 1), ("intermediate", 2), ("advanced", 3)]

def body_part_map : CategoryMap :=
  [("core", 1), ("upper body", 2), ("lower body", 3), ("full body", 4), ("other", 5)]

def meal_map : CategoryMap :=
  [("breakfast", 1), ("lunch", 2), ("dinner", 3), ("snack", 4)]

def diet_map : CategoryMap :=
  [("standard", 1), ("vegan", 2), ("keto", 3), ("paleo", 4), ("mediterranean", 5)]

def cooking_map : CategoryMap :=
  [("baked", 1), ("boiled", 2), ("grilled", 3), ("fried", 4), ("steamed", 5)]

/-- The seven category maps of the service, in source order. -/
def all_maps : List CategoryMap :=
  [gender_map, workout_map, difficulty_map, body_part_map, meal_map, diet_map, cooking_map]

/-- Embedding of the pydantic `PredictRequest` model (app.py lines 82-113):
28 optional fields, numeric ones as rationals, categorical ones as strings. -/
structure PredictRequest where
  age : Option Rat := none
  gender : Option String := none
  weight : Option Rat := none
  height : Option Rat := none
  fat_percentage : Option Rat := none
  bmi_input : Option Rat := none
  workout_type : Option String := none
  session_duration : Option Rat := none
  workout_frequency : Option Rat := none
  max_bpm : Option Rat := none
  avg_bpm : Option Rat := none
  resting_bpm : Option Rat := none
  difficulty : Option String := none
  body_part : Option String := none
  meal_type : Option String := none
  diet_type : Option String := none
  cooking_method : Option String := none
  water_intake : Option Rat := none
  meals_frequency : Option Rat := none
  sugar_g : Option Rat := none
  sodium_mg : Option Rat := none
  cholesterol_mg : Option Rat := none
  serving_size_g : Option Rat := none
  prep_time_min : Option Rat := none
  cook_time_min : Option Rat := none
  rating : Option Rat := none
  experience_level : Option Rat := none
  physical_exercise : Option Rat := none

/-- Python's `value or 0` idiom on an optional float: `None` and the falsy
value `0.0` both yield 0; any other value passes through unchanged. -/
def pyOr (v : Option Rat) : Rat :=
  match v with
  | none => 0
  | some x => if x = 0 then 0 else x

/-- The feature list built by the /predict handler (app.py lines 137-159):
the positional 28-slot vector, categorical fields run through `encode`
with their matching map, numeric fields through the `x or 0` idiom. -/
def build (data : PredictRequest) : List Rat :=
  [ pyOr data.age, (encode data.gender gender_map : Rat),
    pyOr data.weight, pyOr data.height,
    pyOr data.fat_percentage, pyOr data.bmi_input,
    (encode data.workout_type workout_map : Rat), pyOr data.session_duration,
    pyOr data.workout_frequency, pyOr data.max_bpm,
    pyOr data.avg_bpm, pyOr data.resting_bpm,
    (encode data.difficulty difficulty_map : Rat),
    (encode data.body_part body_part_map : Rat),
    (encode data.meal_type meal_map : Rat),
    (encode data.diet_type diet_map : Rat),
    (encode data.cooking_method cooking_map : Rat),
    pyOr data.water_intake, pyOr data.meals_frequency,
    pyOr data.sugar_g, pyOr data.sodium_mg,
    pyOr data.cholesterol_mg, pyOr data.serving_size_g,
    pyOr data.prep_time_min, pyOr data.cook_time_min,
    pyOr data.rating,
    pyOr data.experience_level, pyOr data.physical_exercise ]

/-- Spec-side builder, following the wording of the spec (section 4.2):
for each slot, a categorical field goes through `encode` with its matching
map; a numeric field absent is replaced by 0 and a supplied numeric value
is used unchanged (`Option.getD 0`).  Compared against `build` below. -/
def build_spec (data : PredictRequest) : List Rat :=
  [ data.age.getD 0, (encode data.gender gender_map : Rat),
    data.weight.getD 0, data.height.getD 0,
    data.fat_percentage.getD 0, data.bmi_input.getD 0,
    (encode data.workout_type workout_map : Rat), data.session_duration.getD 0,
    data.workout_frequency.getD 0, data.max_bpm.getD 0,
    data.avg_bpm.getD 0, data.resting_bpm.getD 0,
    (encode data.difficulty difficulty_map : Rat),
    (encode data.body_part body_part_map : Rat),
    (encode data.meal_type meal_map : Rat),
    (encode data.diet_type diet_map : Rat),
    (encode data.cooking_method cooking_map : Rat),
    data.water_intake.getD 0, data.meals_frequency.getD 0,
    data.sugar_g.getD 0, data.sodium_mg.getD 0,
    data.cholesterol_mg.getD 0, data.serving_size_g.getD 0,
    data.prep_time_min.getD 0, data.cook_time_min.getD 0,
    data.rating.getD 0,
    data.experience_level.getD 0, data.physical_exercise.getD 0 ]

/-- The entirely empty request: every field absent. -/
def emptyRequest : PredictRequest := {}

/-- The end-to-end example request of the spec (section 8): gender Female,
weight 65, height 1.70, workout type cardio, session duration 1.0, all
other fields absent. -/
def exampleRequest : PredictRequest :=
  { gender := some "Female", weight := some 65, height := some (17/10),
    workout_type := some "cardio", session_duration := some 1 }

/-- Body of the /predict JSON response: exactly one of a single
`predicted_calories` number or a single `error` message. -/
inductive PredictBody where
  | predicted_calories (v : Rat)
  | error (msg : String)
deriving DecidableEq

/-- A JSON response with its HTTP status code. -/
structure JsonResponse where
  status : Nat
  body : PredictBody
deriving DecidableEq

/-- Embedding of the /predict handler (app.py lines 134-166): build the
feature vector, call the model, and wrap the outcome; the encoding and
list construction are total, so the only fallible step is the model call,
whose exception is caught and turned into an error body.  FastAPI delivers
a returned dict with status 200, in both branches. -/
def predictHandler (model : List Rat → Except String Rat)
    (data : PredictRequest) : JsonResponse :=
  match model (build data) with
  | Except.ok v => { status := 200, body := PredictBody.predicted_calories v }
  | Except.error e => { status := 200, body := PredictBody.error e }

/-- Embedding of the module-level model-loading guard (app.py lines 48-53):
if the artifact file does not exist, a FileNotFoundError is raised during
import, before any route is registered; otherwise the model is loaded. -/
def startupLoad {α : Type} (fileExists : Bool) (load : Unit → α) : Except String α :=
  if fileExists then Except.ok (load ())
  else Except.error "Model file missing: calories_predictor_model.joblib"

/-- The `x or 0` idiom agrees with plain default substitution on values:
an explicit 0 collapses to 0 anyway. -/
theorem pyOr_eq_getD (v : Option Rat) : pyOr v = v.getD 0 := by
  cases v with
  | none => rfl
  | some x =>
    by_cases h : x = 0 <;> simp [pyOr, h]

/-- Any code produced by `encode` is the code of some entry of the map, or 0. -/
theorem encode_le_bound (c : Option String) (m : CategoryMap) (B : Nat)
    (h : ∀ p ∈ m, p.2 ≤ B) : encode c m ≤ B := by
  cases c with
  | none => exact Nat.zero_le B
  | some s =>
    show (m.lookup (strLower s)).getD 0 ≤ B
    induction m with
    | nil => simp
    | cons p t ih =>
      obtain ⟨k, b⟩ := p
      simp only [List.lookup]
      split
      · simpa using h (k, b) (by simp)
      · exact ih fun q hq => h q (List.mem_cons_of_mem _ hq)

/-- Claim C1: the feature-vector builder emits exactly 28 slots in the fixed
order, each categorical field encoded with its matching category map, each
absent numeric field replaced by 0, each supplied numeric value used
unchanged; on the spec's end-to-end example request the vector is
[0, 2, 65, 1.70, 0, 0, 2, 1, 0, ..., 0]. -/
theorem build_follows_spec :
    (∀ data : PredictRequest,
      build data = build_spec data ∧ (build data).length = 28) ∧
    build exampleRequest =
      [0, 2, 65, 17/10, 0, 0, 2, 1, 0, 0, 0, 0, 0, 0,
       0, 0, 0, 0, 0, 0, 0, 0, 0, 0, 0, 0, 0, 0] := by
  constructor
  · intro data
    exact ⟨by simp [build, build_spec, pyOr_eq_getD], rfl⟩
  · have hg : encode (some "Female") gender_map = 2 := by decide
    have hw : encode (some "cardio") workout_map = 2 := by decide
    have h0 : ∀ m, encode none m = 0 := fun m => rfl
    norm_num [build, exampleRequest, pyOr, hg, hw, h0]

/-- Claim C2: encode returns 0 when the label is absent, returns the map's
code for the lower-cased label when that lower-cased label is a key of the
map, and returns 0 when it is not; being a total function, it never
raises. -/
theorem encode_contract (c : Option String) (m : CategoryMap) :
    (c = none → encode c m = 0) ∧
    (∀ s, c = some s →
      ((∀ code, m.lookup (strLower s) = some code → encode c m = code) ∧
       (m.lookup (strLower s) = none → encode c m = 0))) := by
  constructor
  · intro h; subst h; rfl
  · intro s hs
    subst hs
    constructor
    · intro code hcode
      show (m.lookup (strLower s)).getD 0 = code
      rw [hcode]; rfl
    · intro hnone
      show (m.lookup (strLower s)).getD 0 = 0
      rw [hnone]; rfl

/-- Witness for C2 at concrete inputs: the label Male (lower-cased male,
a key of the gender map) encodes to 1. -/
theorem encode_contract_witness : encode (some "Male") gender_map = 1 :=
  ((encode_contract (some "Male") gender_map).2 "Male" rfl).1 1 (by decide)

/-- Claim C3: exactly seven category maps, with exactly the listed keys and
codes (every listed key is present with its listed code, and each map has
no further entries). -/
theorem category_maps_contents :
    all_maps.length = 7 ∧
    (gender_map.lookup "male" = some 1 ∧ gender_map.lookup "female" = some 2 ∧
      gender_map.lookup "other" = some 3 ∧ gender_map.length = 3) ∧
    (workout_map.lookup "strength" = some 1 ∧ workout_map.lookup "cardio" = some 2 ∧
      workout_map.lookup "flexibility" = some 3 ∧ workout_map.lookup "other" = some 4 ∧
      workout_map.length = 4) ∧
    (difficulty_map.lookup "beginner" = some 1 ∧ difficulty_map.lookup "intermediate" = some 2 ∧
      difficulty_map.lookup "advanced" = some 3 ∧ difficulty_map.length = 3) ∧
    (body_part_map.lookup "core" = some 1 ∧ body_part_map.lookup "upper body" = some 2 ∧
      body_part_map.lookup "lower body" = some 3 ∧ body_part_map.lookup "full body" = some 4 ∧
      body_part_map.lookup "other" = some 5 ∧ body_part_map.length = 5) ∧
    (meal_map.lookup "breakfast" = some 1 ∧ meal_map.lookup "lunch" = some 2 ∧
      meal_map.lookup "dinner" = some 3 ∧ meal_map.lookup "snack" = some 4 ∧
      meal_map.length = 4) ∧
    (diet_map.lookup "standard" = some 1 ∧ diet_map.lookup "vegan" = some 2 ∧
      diet_map.lookup "keto" = some 3 ∧ diet_map.lookup "paleo" = some 4 ∧
      diet_map.lookup "mediterranean" = some 5 ∧ diet_map.length = 5) ∧
    (cooking_map.lookup "baked" = some 1 ∧ cooking_map.lookup "boiled" = some 2 ∧
      cooking_map.lookup "grilled" = some 3 ∧ cooking_map.lookup "fried" = some 4 ∧
      cooking_map.lookup "steamed" = some 5 ∧ cooking_map.length = 5) := by
  decide

/-- Claim C4: the built feature vector always has length exactly 28, and
the entirely empty request yields the all-zero 28-vector. -/
theorem vector_length_and_empty :
    (∀ data : PredictRequest, (build data).length = 28) ∧
    build emptyRequest = List.replicate 28 0 := by
  refine ⟨fun data => rfl, ?_⟩
  have h0 : ∀ m, encode none m = 0 := fun m => rfl
  norm_num [build, emptyRequest, pyOr, h0, List.replicate]

/-- Claim C5: for every category map of the service and every known label
(key) of that map, encoding the label and encoding its upper-cased form
give the same code: encoding is case-insensitive on known labels. -/
theorem encode_case_insensitive :
    ∀ m ∈ all_maps, ∀ p ∈ m, encode (some p.1) m = encode (some (strUpper p.1)) m := by
  decide

/-- Witness for C5 at concrete inputs: in the gender map, the key male and
its upper-cased form encode identically. -/
theorem encode_case_insensitive_witness :
    encode (some "male") gender_map = encode (some (strUpper "male")) gender_map :=
  encode_case_insensitive gender_map (by decide) ("male", 1) (by decide)

/-- Claim C6: encode and the feature-vector construction are pure and
deterministic: identical inputs yield identical outputs, with no hidden
state (both are closed functions of their arguments alone). -/
theorem encode_build_deterministic :
    (∀ (c c' : Option String) (m m' : CategoryMap),
      c = c' → m = m' → encode c m = encode c' m') ∧
    (∀ d d' : PredictRequest, d = d' → build d = build d') :=
  ⟨fun c c' m m' hc hm => by rw [hc, hm], fun d d' h => by rw [h]⟩

/-- Witness for C6 at concrete inputs: two runs on the empty request give
the same vector, and two runs of encode on the same label agree. -/
theorem encode_build_deterministic_witness :
    encode (some "male") gender_map = encode (some "male") gender_map ∧
    build emptyRequest = build emptyRequest :=
  ⟨encode_build_deterministic.1 (some "male") (some "male") gender_map gender_map rfl rfl,
   encode_build_deterministic.2 emptyRequest emptyRequest rfl⟩

/-- Claim C7: on success the /predict handler returns a body whose single
key is predicted_calories with the model's number; if the inference call
fails, the exception is caught and an error body with the exception
message is returned; both outcomes carry status 200, and the handler
(a total function) never propagates an exception. -/
theorem predict_response_shape (model : List Rat → Except String Rat)
    (data : PredictRequest) :
    (predictHandler model data).status = 200 ∧
    ((∃ v, model (build data) = Except.ok v ∧
        (predictHandler model data).body = PredictBody.predicted_calories v) ∨
     (∃ e, model (build data) = Except.error e ∧
        (predictHandler model data).body = PredictBody.error e)) := by
  cases h : model (build data) with
  | ok v =>
    exact ⟨by simp [predictHandler, h], Or.inl ⟨v, rfl, by simp [predictHandler, h]⟩⟩
  | error e =>
    exact ⟨by simp [predictHandler, h], Or.inr ⟨e, rfl, by simp [predictHandler, h]⟩⟩

/-- Claim C8: when the model artifact file is absent, the module-level
guard raises before any route is registered: startup never yields a loaded
model, so no serving state (and no placeholder prediction) is reachable. -/
theorem startup_fails_without_model {α : Type} (load : Unit → α) :
    startupLoad false load =
      Except.error "Model file missing: calories_predictor_model.joblib" ∧
    ∀ m : α, startupLoad false load ≠ Except.ok m := by
  refine ⟨rfl, fun m h => ?_⟩
  simp [startupLoad] at h

/-- Witness for C8 at a concrete artifact type and loader. -/
theorem startup_fails_without_model_witness :
    startupLoad false (fun _ => (0 : Nat)) ≠ Except.ok 0 :=
  (startup_fails_without_model (fun _ => (0 : Nat))).2 0

/-- Claim C9: every categorical slot of the built vector is a non-negative
code bounded by its map's largest code: gender and difficulty in 0..3,
workout type and meal type in 0..4, body part, diet type and cooking
method in 0..5. -/
theorem categorical_slots_bounded (data : PredictRequest) :
    (0 ≤ (build data).getD 1 0 ∧ (build data).getD 1 0 ≤ 3) ∧
    (0 ≤ (build data).getD 6 0 ∧ (build data).getD 6 0 ≤ 4) ∧
    (0 ≤ (build data).getD 12 0 ∧ (build data).getD 12 0 ≤ 3) ∧
    (0 ≤ (build data).getD 13 0 ∧ (build data).getD 13 0 ≤ 5) ∧
    (0 ≤ (build data).getD 14 0 ∧ (build data).getD 14 0 ≤ 4) ∧
    (0 ≤ (build data).getD 15 0 ∧ (build data).getD 15 0 ≤ 5) ∧
    (0 ≤ (build data).getD 16 0 ∧ (build data).getD 16 0 ≤ 5) := by
  have h1 : (build data).getD 1 0 = (encode data.gender gender_map : Rat) := rfl
  have h6 : (build data).getD 6 0 = (encode data.workout_type workout_map : Rat) := rfl
  have h12 : (build data).getD 12 0 = (encode data.difficulty difficulty_map : Rat) := rfl
  have h13 : (build data).getD 13 0 = (encode data.body_part body_part_map : Rat) := rfl
  have h14 : (build data).getD 14 0 = (encode data.meal_type meal_map : Rat) := rfl
  have h15 : (build data).getD 15 0 = (encode data.diet_type diet_map : Rat) := rfl
  have h16 : (build data).getD 16 0 = (encode data.cooking_method cooking_map : Rat) := rfl
  rw [h1, h6, h12, h13, h14, h15, h16]
  refine ⟨⟨by positivity, ?_⟩, ⟨by positivity, ?_⟩, ⟨by positivity, ?_⟩,
    ⟨by positivity, ?_⟩, ⟨by positivity, ?_⟩, ⟨by positivity, ?_⟩, ⟨by positivity, ?_⟩⟩
  · exact_mod_cast encode_le_bound data.gender gender_map 3 (by decide)
  · exact_mod_cast encode_le_bound data.workout_type workout_map 4 (by decide)
  · exact_mod_cast encode_le_bound data.difficulty difficulty_map 3 (by decide)
  · exact_mod_cast encode_le_bound data.body_part body_part_map 5 (by decide)
  · exact_mod_cast encode_le_bound data.meal_type meal_map 4 (by decide)
  · exact_mod_cast encode_le_bound data.diet_type diet_map 5 (by decide)
  · exact_mod_cast encode_le_bound data.cooking_method cooking_map 5 (by decide)

/-- Claim C10: for every numeric field, supplying the explicit value 0
yields the same feature vector as omitting the field: the `x or 0` idiom
maps the falsy 0.0 and None to the same substitute. -/
theorem zero_indistinguishable_from_absent (data : PredictRequest) :
    build { data with age := some 0 } = build { data with age := none } ∧
    build { data with weight := some 0 } = build { data with weight := none } ∧
    build { data with height := some 0 } = build { data with height := none } ∧
    build { data with fat_percentage := some 0 } = build { data with fat_percentage := none } ∧
    build { data with bmi_input := some 0 } = build { data with bmi_input := none } ∧
    build { data with session_duration := some 0 } = build { data with session_duration := none } ∧
    build { data with workout_frequency := some 0 } = build { data with workout_frequency := none } ∧
    build { data with max_bpm := some 0 } = build { data with max_bpm := none } ∧
    build { data with avg_bpm := some 0 } = build { data with avg_bpm := none } ∧
    build { data with resting_bpm := some 0 } = build { data with resting_bpm := none } ∧
    build { data with water_intake := some 0 } = build { data with water_intake := none } ∧
    build { data with meals_frequency := some 0 } = build { data with meals_frequency := none } ∧
    build { data with sugar_g := some 0 } = build { data with sugar_g := none } ∧
    build { data with sodium_mg := some 0 } = build { data with sodium_mg := none } ∧
    build { data with cholesterol_mg := some 0 } = build { data with cholesterol_mg := none } ∧
    build { data with serving_size_g := some 0 } = build { data with serving_size_g := none } ∧
    build { data with prep_time_min := some 0 } = build { data with prep_time_min := none } ∧
    build { data with cook_time_min := some 0 } = build { data with cook_time_min := none } ∧
    build { data with rating := some 0 } = build { data with rating := none } ∧
    build { data with experience_level := some 0 } = build { data with experience_level := none } ∧
    build { data with physical_exercise := some 0 } = build { data with physical_exercise := none } := by
  repeat' constructor
